import Mathlib

/-!
Shallow embedding of `endedupe/s3index.py`: a sequencer-based optimistic
lock over a DynamoDB table (the lock store) and the notification-handling
retry loop built on it.

Modelling conventions:
* A DynamoDB item for one coordination key is a `LockRecord`; the table,
  restricted to that single key, is an `Option LockRecord` (`none` = no item).
* Python's `str` comparison is lexicographic over Unicode code points;
  it is embedded as `pyStrLtB` over `String.data`.
* A DynamoDB attribute may hold the NULL value: the `sequencer` attribute is
  `Option String` (`none` = NULL).  boto3 deserialises NULL to Python `None`,
  and a DynamoDB condition `a = :v` between two NULL values holds, which is
  what `Option.decEq` gives on `none = none`.
* `ItemLockedException` and an exception raised by the processing callback
  are the two ways control escapes; they are embedded as the error type
  `PyErr`.
-/

namespace Endedupe

/-- Python `a < b` on single characters (Unicode code points). -/
def charLtB (a b : Char) : Bool := a.toNat < b.toNat

/-- Lexicographic comparison of code-point lists, as Python compares `str`. -/
def lexLtB : List Char → List Char → Bool
  | [], [] => false
  | [], _ :: _ => true
  | _ :: _, [] => false
  | a :: as, b :: bs =>
      if charLtB a b then true
      else if charLtB b a then false
      else lexLtB as bs

/-- Python `a < b` on strings. -/
def pyStrLtB (a b : String) : Bool := lexLtB a.data b.data

/-- Python truthiness of a string: nonempty strings are truthy
(`if locked:` in `getCurrentSequencer`). -/
def pyTruthy (s : String) : Bool := !(s == "")

/-- Values for the lock field (`LOCK_VALUE_LOCKED = 'locked'`). -/
def LOCK_VALUE_LOCKED : String := "locked"

/-- Values for the lock field (`LOCK_VALUE_UNLOCKED = ''`). -/
def LOCK_VALUE_UNLOCKED : String := ""

/-- Constant `OUTCOME_OUT_OF_DATE = 1` : the stale outcome. -/
def OUTCOME_OUT_OF_DATE : Nat := 1

/-- Constant `OUTCOME_PROCESSED = 2` : the processed outcome. -/
def OUTCOME_PROCESSED : Nat := 2

/-- One DynamoDB item of the lock table: fields `s3key`, `sequencer`,
`lock_status`, `updated_by`.  The `sequencer` attribute is `Option String`
because the rollback path may write the DynamoDB NULL value into it. -/
structure LockRecord where
  s3key : String
  sequencer : Option String
  lock_status : String
  updated_by : String
  deriving Repr, DecidableEq

/-- The `S3Lock` object: a coordination key plus the caller's execution id
(the DynamoDB table itself is passed separately as an `Option LockRecord`). -/
structure S3Lock where
  key : String
  execution_id : String
  deriving Repr, DecidableEq

/-- Exception `ItemLockedException`: thrown when the item requested is locked by
another user.  Raised only by `getCurrentSequencer`. -/
inductive ItemLockedException where
  | mk
  deriving Repr, DecidableEq

/-- An exception propagating out of `handle_notification_if_up_to_date`:
either the internal `ItemLockedException`, or an arbitrary error `e`
raised by the processing callback. -/
inductive PyErr (E : Type) where
  | itemLocked
  | procErr (e : E)
  deriving Repr, DecidableEq

/-- Method `S3Lock.getCurrentSequencer`: consistent read of the item.  If the item
is present and its `lock_status` is truthy, raise `ItemLockedException`;
if present and unlocked, return its `sequencer`; if absent, return `None`.
(`none` in the result covers both the absent item and a NULL sequencer,
exactly as both read back as Python `None`.) -/
def getCurrentSequencer (store : Option LockRecord) :
    Except ItemLockedException (Option String) :=
  match store with
  | some item =>
      if pyTruthy item.lock_status then Except.error ItemLockedException.mk
      else Except.ok item.sequencer
  | none => Except.ok none

/-- Method `S3Lock.lockForSequencer`: conditional `put_item` of a fully new item
`(key, newSequencer, locked, execution_id)` with condition
`attribute_not_exists(s3key) OR (sequencer = :old_sequencer AND
lock_status = :empty_lock)`.  Returns `(True, new store)` on success and
`(False, unchanged store)` when the conditional check fails. -/
def lockForSequencer (lk : S3Lock) (oldSequencer : Option String)
    (newSequencer : String) (store : Option LockRecord) :
    Bool × Option LockRecord :=
  let newItem : LockRecord :=
    { s3key := lk.key
      sequencer := some newSequencer
      lock_status := LOCK_VALUE_LOCKED
      updated_by := lk.execution_id }
  match store with
  | none => (true, some newItem)
  | some item =>
      if item.sequencer = oldSequencer ∧ item.lock_status = LOCK_VALUE_UNLOCKED
      then (true, some newItem)
      else (false, some item)

/-- Method `S3Lock.unlockAndRollBack`: unconditional `update_item` setting
`lock_status`, `updated_by` and `sequencer`.  DynamoDB `update_item`
creates the item when it is absent (only the SET attributes present,
modelled with the same record shape). -/
def unlockAndRollBack (lk : S3Lock) (to_sequencer : Option String)
    (store : Option LockRecord) : Option LockRecord :=
  match store with
  | some item =>
      some { item with
              lock_status := LOCK_VALUE_UNLOCKED
              updated_by := lk.execution_id
              sequencer := to_sequencer }
  | none =>
      some { s3key := lk.key
             sequencer := to_sequencer
             lock_status := LOCK_VALUE_UNLOCKED
             updated_by := lk.execution_id }

/-- Method `S3Lock.unlock`: unconditional `update_item` setting only
`lock_status` and `updated_by`. -/
def unlock (lk : S3Lock) (store : Option LockRecord) : Option LockRecord :=
  match store with
  | some item =>
      some { item with
              lock_status := LOCK_VALUE_UNLOCKED
              updated_by := lk.execution_id }
  | none =>
      some { s3key := lk.key
             sequencer := none
             lock_status := LOCK_VALUE_UNLOCKED
             updated_by := lk.execution_id }

/-- The staleness test of line 168:
`oldsequencer is None or oldsequencer < sequencer`. -/
def seqIsOlder : Option String → String → Bool
  | none, _ => true
  | some old, s => pyStrLtB old s

/-- Observable side effects accumulated by one call of
`handle_notification_if_up_to_date`: the lock-table state, and how many
times `backoff_fn`, `lockForSequencer` and `processing_fn` were invoked. -/
structure HandleState where
  store : Option LockRecord
  backoffs : Nat
  casAttempts : Nat
  procCalls : Nat
  deriving Repr, DecidableEq

/-- How one call of `handle_notification_if_up_to_date` ends: a normal
return of the `rv` tuple, a propagated exception, or fuel exhaustion of the
(unbounded, in the source) `while True:` loop. -/
inductive RunResult (E A : Type) where
  | returned (rv : Nat × Option A)
  | raised (e : PyErr E)
  | outOfFuel
  deriving Repr, DecidableEq

/-- Function `handle_notification_if_up_to_date`, with the event collapsed to the
sequencer it carries, the processing callback to the single outcome
`proc : Except E A` of its (at most one) invocation in this call, and the
unbounded `while True:` loop bounded by `fuel`.  Mirrors lines 158-194:
read (`ItemLockedException` → backoff, retry), staleness test, conditional
lock (failure → backoff, retry), processing, unlock / rollback-and-reraise. -/
def handle_notification_if_up_to_date (lk : S3Lock) (sequencer : String)
    (proc : Except E A) : Nat → HandleState → RunResult E A × HandleState
  | 0, st => (RunResult.outOfFuel, st)
  | fuel + 1, st =>
    match getCurrentSequencer st.store with
    | Except.error ItemLockedException.mk =>
        handle_notification_if_up_to_date lk sequencer proc fuel
          { st with backoffs := st.backoffs + 1 }
    | Except.ok oldsequencer =>
        if seqIsOlder oldsequencer sequencer then
          match lockForSequencer lk oldsequencer sequencer st.store with
          | (false, store1) =>
              handle_notification_if_up_to_date lk sequencer proc fuel
                { st with
                    store := store1
                    casAttempts := st.casAttempts + 1
                    backoffs := st.backoffs + 1 }
          | (true, store1) =>
              match proc with
              | Except.ok v =>
                  (RunResult.returned (OUTCOME_PROCESSED, some v),
                   { st with
                       store := unlock lk store1
                       casAttempts := st.casAttempts + 1
                       procCalls := st.procCalls + 1 })
              | Except.error e =>
                  (RunResult.raised (PyErr.procErr e),
                   { st with
                       store := unlockAndRollBack lk oldsequencer store1
                       casAttempts := st.casAttempts + 1
                       procCalls := st.procCalls + 1 })
        else
          (RunResult.returned (OUTCOME_OUT_OF_DATE, none), st)

/-! ### Order facts about the embedded Python string comparison -/

theorem charLtB_irrefl (a : Char) : charLtB a a = false := by
  simp [charLtB]

theorem charLtB_asymm {a b : Char} (h : charLtB a b = true) :
    charLtB b a = false := by
  simp [charLtB] at h ⊢
  omega

theorem lexLtB_irrefl : ∀ l : List Char, lexLtB l l = false
  | [] => rfl
  | a :: as => by
      simp [lexLtB, charLtB_irrefl a, lexLtB_irrefl as]

theorem lexLtB_asymm : ∀ {l m : List Char},
    lexLtB l m = true → lexLtB m l = false
  | [], [], h => by simp [lexLtB] at h
  | [], _ :: _, _ => rfl
  | _ :: _, [], h => by simp [lexLtB] at h
  | a :: as, b :: bs, h => by
      by_cases hab : charLtB a b = true
      · simp [lexLtB, charLtB_asymm hab, hab]
      · by_cases hba : charLtB b a = true
        · simp [lexLtB, hab, hba] at h
        · simp [lexLtB, hab, hba] at h ⊢
          exact lexLtB_asymm h

theorem pyStrLtB_irrefl (s : String) : pyStrLtB s s = false :=
  lexLtB_irrefl s.data

theorem pyStrLtB_asymm {s t : String} (h : pyStrLtB s t = true) :
    pyStrLtB t s = false :=
  lexLtB_asymm h

/-- Relation `s <= t` in Python (in a total order, `not (t < s)`) follows from
`s < t ∨ s = t`. -/
theorem pyStrLtB_le_not_lt {s t : String}
    (h : pyStrLtB s t = true ∨ s = t) : pyStrLtB t s = false := by
  rcases h with h | rfl
  · exact pyStrLtB_asymm h
  · exact pyStrLtB_irrefl s

theorem pyTruthy_false_iff {s : String} : pyTruthy s = false ↔ s = "" := by
  simp [pyTruthy]

/-! ### Single-iteration behaviour of the retry loop -/

/-- When the current record is unlocked and its sequencer is not older than
the incoming one, the loop returns the out-of-date outcome at once, with no
state change at all. -/
theorem handle_stale_eq (lk : S3Lock) (sequencer : String)
    (proc : Except E A) (fuel : Nat) (st : HandleState) (r : LockRecord)
    (hstore : st.store = some r)
    (hunlocked : pyTruthy r.lock_status = false)
    (hstale : seqIsOlder r.sequencer sequencer = false) :
    handle_notification_if_up_to_date lk sequencer proc (fuel + 1) st
      = (RunResult.returned (OUTCOME_OUT_OF_DATE, none), st) := by
  simp [handle_notification_if_up_to_date, getCurrentSequencer, hstore,
        hunlocked, hstale]

/-- The record acquired by a successful `lockForSequencer` call. -/
def lockedRecord (lk : S3Lock) (sequencer : String) : LockRecord :=
  { s3key := lk.key
    sequencer := some sequencer
    lock_status := LOCK_VALUE_LOCKED
    updated_by := lk.execution_id }

/-- When the read succeeds returning `old` and `old` is older than the
incoming sequencer, the compare-and-swap succeeds (this needs the
`lockForSequencer` condition to hold, which follows from the read), and a
successful processing callback ends the call with the processed outcome and
an unlocked record carrying the incoming sequencer. -/
theorem handle_ok_eq (lk : S3Lock) (sequencer : String) (v : A)
    (fuel : Nat) (st : HandleState) (old : Option String)
    (hread : getCurrentSequencer st.store = Except.ok old)
    (holder : seqIsOlder old sequencer = true) :
    handle_notification_if_up_to_date lk sequencer
        (Except.ok v : Except E A) (fuel + 1) st
      = (RunResult.returned (OUTCOME_PROCESSED, some v),
         { st with
             store := some { lockedRecord lk sequencer with
                               lock_status := LOCK_VALUE_UNLOCKED }
             casAttempts := st.casAttempts + 1
             procCalls := st.procCalls + 1 }) := by
  match hs : st.store with
  | none =>
      rw [hs] at hread
      simp [getCurrentSequencer] at hread
      subst hread
      simp [handle_notification_if_up_to_date, getCurrentSequencer, hs,
            holder, lockForSequencer, unlock, lockedRecord]
  | some item =>
      rw [hs] at hread
      by_cases hl : pyTruthy item.lock_status = true
      · simp [getCurrentSequencer, hl] at hread
      · have hl' : item.lock_status = "" :=
          pyTruthy_false_iff.mp (by simpa using hl)
        simp [getCurrentSequencer, hl] at hread
        subst hread
        simp [handle_notification_if_up_to_date, getCurrentSequencer, hs,
              hl', pyTruthy, holder, lockForSequencer, unlock,
              lockedRecord, LOCK_VALUE_UNLOCKED]

/-- Same acquisition path, but the processing callback raises `e`: the call
rolls the record back to the previously read sequencer, unlocked, and
re-raises `e`. -/
theorem handle_err_eq (lk : S3Lock) (sequencer : String) (e : E)
    (fuel : Nat) (st : HandleState) (old : Option String)
    (hread : getCurrentSequencer st.store = Except.ok old)
    (holder : seqIsOlder old sequencer = true) :
    handle_notification_if_up_to_date lk sequencer
        (Except.error e : Except E A) (fuel + 1) st
      = (RunResult.raised (PyErr.procErr e),
         { st with
             store := some { s3key := lk.key
                             sequencer := old
                             lock_status := LOCK_VALUE_UNLOCKED
                             updated_by := lk.execution_id }
             casAttempts := st.casAttempts + 1
             procCalls := st.procCalls + 1 }) := by
  match hs : st.store with
  | none =>
      rw [hs] at hread
      simp [getCurrentSequencer] at hread
      subst hread
      simp [handle_notification_if_up_to_date, getCurrentSequencer, hs,
            holder, lockForSequencer, unlockAndRollBack]
  | some item =>
      rw [hs] at hread
      by_cases hl : pyTruthy item.lock_status = true
      · simp [getCurrentSequencer, hl] at hread
      · have hl' : item.lock_status = "" :=
          pyTruthy_false_iff.mp (by simpa using hl)
        simp [getCurrentSequencer, hl] at hread
        subst hread
        simp [handle_notification_if_up_to_date, getCurrentSequencer, hs,
              hl', pyTruthy, holder, lockForSequencer,
              unlockAndRollBack, LOCK_VALUE_UNLOCKED]

/-! ### Claims about `handle_notification_if_up_to_date` -/

/-- C1: for a key whose current record is unlocked with durable sequencer
`oldSeq`, handling a notification whose sequencer is less than or equal to
`oldSeq` (equality counting as stale) returns the out-of-date (STALE)
outcome, performs no write to the lock store and never invokes the
processing callback: the whole handler state is returned unchanged. -/
theorem C1_stale_notification_no_effects
    (lk : S3Lock) (sequencer oldSeq : String) (proc : Except E A)
    (fuel : Nat) (st : HandleState) (r : LockRecord)
    (hstore : st.store = some r)
    (hunlocked : pyTruthy r.lock_status = false)
    (hseq : r.sequencer = some oldSeq)
    (hle : pyStrLtB sequencer oldSeq = true ∨ sequencer = oldSeq) :
    handle_notification_if_up_to_date lk sequencer proc (fuel + 1) st
      = (RunResult.returned (OUTCOME_OUT_OF_DATE, none), st) := by
  refine handle_stale_eq lk sequencer proc fuel st r hstore hunlocked ?_
  rw [hseq]
  simpa [seqIsOlder] using pyStrLtB_le_not_lt hle

theorem C1_witness :
    handle_notification_if_up_to_date ⟨"b/k", "w"⟩ "05"
        (Except.ok 0 : Except Unit Nat) 1
        ⟨some ⟨"b/k", some "10", "", "u"⟩, 0, 0, 0⟩
      = (RunResult.returned (OUTCOME_OUT_OF_DATE, none),
         ⟨some ⟨"b/k", some "10", "", "u"⟩, 0, 0, 0⟩) :=
  C1_stale_notification_no_effects ⟨"b/k", "w"⟩ "05" "10"
    (Except.ok 0) 0 ⟨some ⟨"b/k", some "10", "", "u"⟩, 0, 0, 0⟩
    ⟨"b/k", some "10", "", "u"⟩ rfl (by decide) rfl (Or.inl (by decide))

/-- C3: when the processing callback raises `e` after the lock was acquired
for the incoming sequencer over an unlocked record with durable sequencer
`oldSeq`, the call releases the lock, restores the stored sequencer to
`oldSeq`, and propagates the processing error to the caller. -/
theorem C3_processing_failure_rolls_back_and_propagates
    (lk : S3Lock) (sequencer oldSeq : String) (e : E)
    (fuel : Nat) (st : HandleState) (r : LockRecord)
    (hstore : st.store = some r)
    (hunlocked : pyTruthy r.lock_status = false)
    (hseq : r.sequencer = some oldSeq)
    (hlt : pyStrLtB oldSeq sequencer = true) :
    handle_notification_if_up_to_date lk sequencer
        (Except.error e : Except E A) (fuel + 1) st
      = (RunResult.raised (PyErr.procErr e),
         { st with
             store := some { s3key := lk.key
                             sequencer := some oldSeq
                             lock_status := LOCK_VALUE_UNLOCKED
                             updated_by := lk.execution_id }
             casAttempts := st.casAttempts + 1
             procCalls := st.procCalls + 1 }) := by
  have hread : getCurrentSequencer st.store = Except.ok (some oldSeq) := by
    simp [getCurrentSequencer, hstore, hunlocked, hseq]
  exact handle_err_eq lk sequencer e fuel st (some oldSeq) hread
    (by simpa [seqIsOlder] using hlt)

theorem C3_witness :
    handle_notification_if_up_to_date ⟨"b/k", "w"⟩ "10"
        (Except.error "boom" : Except String Nat) 1
        ⟨some ⟨"b/k", some "05", "", "u"⟩, 0, 0, 0⟩
      = (RunResult.raised (PyErr.procErr "boom"),
         ⟨some ⟨"b/k", some "05", "", "w"⟩, 0, 1, 1⟩) :=
  C3_processing_failure_rolls_back_and_propagates ⟨"b/k", "w"⟩ "10" "05"
    "boom" 0 ⟨some ⟨"b/k", some "05", "", "u"⟩, 0, 0, 0⟩
    ⟨"b/k", some "05", "", "u"⟩ rfl (by decide) rfl (by decide)

/-- C4: if processing failed for sequencer `S` over prior durable sequencer
`P` (with `P < S`), a later delivery of the same `S` against the resulting
store is not judged stale and is processed again, while a delivery of any
`T <= P` still returns the out-of-date (STALE) outcome. -/
theorem C4_retry_after_failure_not_stale
    (lk1 lk2 lk3 : S3Lock) (P S T : String) (e : E) (v : A)
    (proc3 : Except E A) (f1 f2 f3 : Nat) (st : HandleState)
    (r : LockRecord)
    (hstore : st.store = some r)
    (hunlocked : pyTruthy r.lock_status = false)
    (hseq : r.sequencer = some P)
    (hPS : pyStrLtB P S = true)
    (hTP : pyStrLtB T P = true ∨ T = P) :
    ((handle_notification_if_up_to_date lk1 S
        (Except.error e : Except E A) (f1 + 1) st).1
      = RunResult.raised (PyErr.procErr e))
    ∧ ((handle_notification_if_up_to_date lk2 S
          (Except.ok v : Except E A) (f2 + 1)
          (handle_notification_if_up_to_date lk1 S
            (Except.error e : Except E A) (f1 + 1) st).2).1
        = RunResult.returned (OUTCOME_PROCESSED, some v))
    ∧ ((handle_notification_if_up_to_date lk3 T proc3 (f3 + 1)
          (handle_notification_if_up_to_date lk1 S
            (Except.error e : Except E A) (f1 + 1) st).2).1
        = RunResult.returned (OUTCOME_OUT_OF_DATE, none)) := by
  have hread : getCurrentSequencer st.store = Except.ok (some P) := by
    simp [getCurrentSequencer, hstore, hunlocked, hseq]
  have holder : seqIsOlder (some P) S = true := by
    simpa [seqIsOlder] using hPS
  have h1 := handle_err_eq (A := A) lk1 S e f1 st (some P) hread holder
  rw [h1]
  refine ⟨rfl, ?_, ?_⟩
  · rw [handle_ok_eq lk2 S v f2 _ (some P)
      (by simp [getCurrentSequencer, pyTruthy, LOCK_VALUE_UNLOCKED]) holder]
  · rw [handle_stale_eq lk3 T proc3 f3 _
      ⟨lk1.key, some P, LOCK_VALUE_UNLOCKED, lk1.execution_id⟩ rfl
      (by simp [pyTruthy, LOCK_VALUE_UNLOCKED])
      (by simpa [seqIsOlder] using pyStrLtB_le_not_lt hTP)]

theorem C4_witness :
    ((handle_notification_if_up_to_date ⟨"k", "w1"⟩ "10"
        (Except.error () : Except Unit Nat) 1
        ⟨some ⟨"k", some "05", "", "u"⟩, 0, 0, 0⟩).1
      = RunResult.raised (PyErr.procErr ()))
    ∧ ((handle_notification_if_up_to_date ⟨"k", "w2"⟩ "10"
          (Except.ok 7 : Except Unit Nat) 1
          (handle_notification_if_up_to_date ⟨"k", "w1"⟩ "10"
            (Except.error () : Except Unit Nat) 1
            ⟨some ⟨"k", some "05", "", "u"⟩, 0, 0, 0⟩).2).1
        = RunResult.returned (OUTCOME_PROCESSED, some 7))
    ∧ ((handle_notification_if_up_to_date ⟨"k", "w3"⟩ "01"
          (Except.ok 9 : Except Unit Nat) 1
          (handle_notification_if_up_to_date ⟨"k", "w1"⟩ "10"
            (Except.error () : Except Unit Nat) 1
            ⟨some ⟨"k", some "05", "", "u"⟩, 0, 0, 0⟩).2).1
        = RunResult.returned (OUTCOME_OUT_OF_DATE, none)) :=
  C4_retry_after_failure_not_stale ⟨"k", "w1"⟩ ⟨"k", "w2"⟩ ⟨"k", "w3"⟩
    "05" "10" "01" () 7 (Except.ok 9) 0 0 0
    ⟨some ⟨"k", some "05", "", "u"⟩, 0, 0, 0⟩ ⟨"k", some "05", "", "u"⟩
    rfl (by decide) rfl (by decide) (Or.inl (by decide))

/-- C5: when no record exists for the key, the first notification handled,
whatever its sequencer, is never reported stale; with a normally returning
callback it is processed, ending with the processed outcome, the callback
result, and an unlocked record carrying the incoming sequencer. -/
theorem C5_first_notification_processed
    (lk : S3Lock) (sequencer : String) (proc : Except E A)
    (fuel : Nat) (st : HandleState)
    (hstore : st.store = none) :
    (∀ v : A, proc = Except.ok v →
      handle_notification_if_up_to_date lk sequencer proc (fuel + 1) st
        = (RunResult.returned (OUTCOME_PROCESSED, some v),
           { st with
               store := some { s3key := lk.key
                               sequencer := some sequencer
                               lock_status := LOCK_VALUE_UNLOCKED
                               updated_by := lk.execution_id }
               casAttempts := st.casAttempts + 1
               procCalls := st.procCalls + 1 }))
    ∧ (∀ x : Option A,
        (handle_notification_if_up_to_date lk sequencer proc fuel st).1
          ≠ RunResult.returned (OUTCOME_OUT_OF_DATE, x)) := by
  constructor
  · rintro v rfl
    have h := handle_ok_eq (E := E) lk sequencer v fuel st none
      (by simp [getCurrentSequencer, hstore]) rfl
    simpa [lockedRecord, LOCK_VALUE_UNLOCKED] using h
  · intro x
    match fuel with
    | 0 => simp [handle_notification_if_up_to_date]
    | n + 1 =>
        match proc with
        | Except.ok v =>
            rw [handle_ok_eq lk sequencer v n st none
              (by simp [getCurrentSequencer, hstore]) rfl]
            simp [OUTCOME_PROCESSED, OUTCOME_OUT_OF_DATE]
        | Except.error e =>
            rw [handle_err_eq lk sequencer e n st none
              (by simp [getCurrentSequencer, hstore]) rfl]
            simp

theorem C5_witness :
    (handle_notification_if_up_to_date ⟨"b/k", "w"⟩ "0001"
        (Except.ok 3 : Except Unit Nat) 1 ⟨none, 0, 0, 0⟩
      = (RunResult.returned (OUTCOME_PROCESSED, some 3),
         ⟨some ⟨"b/k", some "0001", "", "w"⟩, 0, 1, 1⟩))
    ∧ ((handle_notification_if_up_to_date ⟨"b/k", "w"⟩ "0001"
          (Except.ok 3 : Except Unit Nat) 1 ⟨none, 0, 0, 0⟩).1
        ≠ RunResult.returned (OUTCOME_OUT_OF_DATE, none)) :=
  ⟨(C5_first_notification_processed ⟨"b/k", "w"⟩ "0001" (Except.ok 3) 0
      ⟨none, 0, 0, 0⟩ rfl).1 3 rfl,
   (C5_first_notification_processed ⟨"b/k", "w"⟩ "0001" (Except.ok 3) 1
      ⟨none, 0, 0, 0⟩ rfl).2 none⟩

/-- C6: when the read returns `old` and the incoming sequencer is strictly
newer, a normally returning processing callback ends the call with the
processed outcome paired with the callback result, and the final stored
record is unlocked and carries the incoming sequencer. -/
theorem C6_success_returns_processed_and_unlocked_record
    (lk : S3Lock) (sequencer : String) (v : A)
    (fuel : Nat) (st : HandleState) (old : Option String)
    (hread : getCurrentSequencer st.store = Except.ok old)
    (holder : seqIsOlder old sequencer = true) :
    handle_notification_if_up_to_date lk sequencer
        (Except.ok v : Except E A) (fuel + 1) st
      = (RunResult.returned (OUTCOME_PROCESSED, some v),
         { st with
             store := some { s3key := lk.key
                             sequencer := some sequencer
                             lock_status := LOCK_VALUE_UNLOCKED
                             updated_by := lk.execution_id }
             casAttempts := st.casAttempts + 1
             procCalls := st.procCalls + 1 }) := by
  simpa [lockedRecord, LOCK_VALUE_UNLOCKED] using
    handle_ok_eq (E := E) lk sequencer v fuel st old hread holder

theorem C6_witness :
    handle_notification_if_up_to_date ⟨"b/k", "w"⟩ "10"
        (Except.ok 42 : Except Unit Nat) 1
        ⟨some ⟨"b/k", some "05", "", "u"⟩, 0, 0, 0⟩
      = (RunResult.returned (OUTCOME_PROCESSED, some 42),
         ⟨some ⟨"b/k", some "10", "", "w"⟩, 0, 1, 1⟩) :=
  C6_success_returns_processed_and_unlocked_record ⟨"b/k", "w"⟩ "10" 42 0
    ⟨some ⟨"b/k", some "05", "", "u"⟩, 0, 0, 0⟩ (some "05")
    rfl (by decide)

/-! ### Claims about the store operations -/

/-- Operation `lockForSequencer` has exactly two outcomes: success writing the fresh
locked record, or failure leaving the store untouched. -/
theorem lockForSequencer_cases (lk : S3Lock) (old : Option String)
    (new : String) (store : Option LockRecord) :
    lockForSequencer lk old new store = (true, some (lockedRecord lk new))
    ∨ lockForSequencer lk old new store = (false, store) := by
  match store with
  | none => exact Or.inl rfl
  | some r =>
      by_cases hc : r.sequencer = old ∧ r.lock_status = LOCK_VALUE_UNLOCKED
      · exact Or.inl (by simp [lockForSequencer, lockedRecord, hc])
      · exact Or.inr (by simp [lockForSequencer, lockedRecord, hc])

/-- C2 counterexample: the claim says the compare-and-swap succeeds iff
(no record exists AND the expected sequencer/locked values represent the
unseen state, i.e. the expected sequencer is the `None` read back from an
absent record) OR (the current record matches the expectations).  On the
code this fails: `attribute_not_exists` alone makes the write succeed on an
absent record even when the expected sequencer is `some "5"`, not the
unseen value. -/
theorem C2_counterexample :
    ¬ ( (lockForSequencer ⟨"k", "w"⟩ (some "5") "9" none).1 = true ↔
        (((none : Option LockRecord) = none ∧
            (some "5" : Option String) = none) ∨
         (∃ r : LockRecord, (none : Option LockRecord) = some r ∧
            r.sequencer = some "5" ∧
            r.lock_status = LOCK_VALUE_UNLOCKED)) ) := by
  intro h
  rcases h.mp rfl with ⟨_, hcontr⟩ | ⟨r, hcontr, _⟩
  · exact Option.noConfusion hcontr
  · exact Option.noConfusion hcontr

/-- C2 (amended): `lockForSequencer` succeeds, writing the fully new locked
record, iff no record exists (regardless of the expected values) or the
current record's sequencer equals the expected one and its lock status is
the unlocked value; in every other case it returns `false` with the store
unchanged, and these are the only two outcomes. -/
theorem C2_amended_cas_success_condition
    (lk : S3Lock) (old : Option String) (new : String)
    (store : Option LockRecord) :
    ( lockForSequencer lk old new store = (true, some (lockedRecord lk new))
      ∨ lockForSequencer lk old new store = (false, store) )
    ∧ ( (lockForSequencer lk old new store).1 = true ↔
        store = none ∨
        ∃ r, store = some r ∧ r.sequencer = old ∧
          r.lock_status = LOCK_VALUE_UNLOCKED ) := by
  refine ⟨lockForSequencer_cases lk old new store, ?_⟩
  match store with
  | none =>
      simp [lockForSequencer, lockedRecord]
  | some r =>
      by_cases hc : r.sequencer = old ∧ r.lock_status = LOCK_VALUE_UNLOCKED
      · refine ⟨fun _ => Or.inr ⟨r, rfl, hc.1, hc.2⟩, fun _ => ?_⟩
        simp [lockForSequencer, hc]
      · simp only [lockForSequencer, if_neg hc]
        constructor
        · intro hfalse
          exact absurd hfalse (by simp)
        · rintro (hn | ⟨r2, hr2, hs2, hl2⟩)
          · exact Option.noConfusion hn
          · cases Option.some.inj hr2
            exact absurd ⟨hs2, hl2⟩ hc

/-- C10: the success-path `unlock` writes only the lock-status and
updated-by fields: for every record it returns a record with the same key
and sequencer, the unlocked status and the caller's execution id — with no
condition on the record's current holder or lock state. -/
theorem C10_unlock_frame (lk : S3Lock) (r : LockRecord) :
    ∃ r2, unlock lk (some r) = some r2
      ∧ r2.s3key = r.s3key
      ∧ r2.sequencer = r.sequencer
      ∧ r2.lock_status = LOCK_VALUE_UNLOCKED
      ∧ r2.updated_by = lk.execution_id :=
  ⟨_, rfl, rfl, rfl, rfl, rfl⟩

/-- C8: the internal `ItemLockedException` raised when the read observes a
record locked by another in-flight operation never escapes
`handle_notification_if_up_to_date`; on a locked record the call performs a
backoff and retries the loop from the read step. -/
theorem C8_item_locked_never_escapes
    (lk : S3Lock) (sequencer : String) (proc : Except E A) :
    (∀ fuel st,
      (handle_notification_if_up_to_date lk sequencer proc fuel st).1
        ≠ RunResult.raised PyErr.itemLocked)
    ∧ (∀ fuel st (r : LockRecord), st.store = some r →
        pyTruthy r.lock_status = true →
        handle_notification_if_up_to_date lk sequencer proc (fuel + 1) st
          = handle_notification_if_up_to_date lk sequencer proc fuel
              { st with backoffs := st.backoffs + 1 }) := by
  constructor
  · intro fuel
    induction fuel with
    | zero =>
        intro st
        simp [handle_notification_if_up_to_date]
    | succ n ih =>
        intro st
        simp only [handle_notification_if_up_to_date]
        split
        · exact ih _
        · split
          · split
            · exact ih _
            · split <;> simp
          · simp
  · intro fuel st r hstore hlock
    simp [handle_notification_if_up_to_date, getCurrentSequencer, hstore,
          hlock]

theorem C8_witness :
    ((handle_notification_if_up_to_date ⟨"k", "w"⟩ "10"
        (Except.ok 0 : Except Unit Nat) 2
        ⟨some ⟨"k", some "05", "locked", "u"⟩, 0, 0, 0⟩).1
      ≠ RunResult.raised PyErr.itemLocked)
    ∧ (handle_notification_if_up_to_date ⟨"k", "w"⟩ "10"
        (Except.ok 0 : Except Unit Nat) 1
        ⟨some ⟨"k", some "05", "locked", "u"⟩, 0, 0, 0⟩
      = handle_notification_if_up_to_date ⟨"k", "w"⟩ "10"
          (Except.ok 0 : Except Unit Nat) 0
          ⟨some ⟨"k", some "05", "locked", "u"⟩, 1, 0, 0⟩) :=
  ⟨(C8_item_locked_never_escapes ⟨"k", "w"⟩ "10" (Except.ok 0)).1 2
      ⟨some ⟨"k", some "05", "locked", "u"⟩, 0, 0, 0⟩,
   (C8_item_locked_never_escapes ⟨"k", "w"⟩ "10" (Except.ok 0)).2 0
      ⟨some ⟨"k", some "05", "locked", "u"⟩, 0, 0, 0⟩
      ⟨"k", some "05", "locked", "u"⟩ rfl (by decide)⟩

/-! ### A small-step view of the retry loop

To speak about what happens between two loop iterations while another
worker changes the store, the body of `handle_notification_if_up_to_date`
is re-read as a step function over an explicit program counter.  Each
program point is one of the source's phases: about to read (step 1), about
to attempt the conditional lock with the value just read (step 3), about to
run processing while holding the lock (step 4), finished, or propagating an
exception.  The data carried and the transitions are exactly those of the
`while True:` loop above. -/

/-- Program counter of one worker inside the retry loop. -/
inductive WorkerPC (E A : Type) where
  | atRead
  | atCas (old : Option String)
  | atProc (old : Option String)
  | wReturned (rv : Nat × Option A)
  | wRaised (e : PyErr E)

/-- One worker's full state: program counter, the store as this worker
last left it, and the observable call counters. -/
structure WState (E A : Type) where
  pc : WorkerPC E A
  store : Option LockRecord
  backoffs : Nat
  casAttempts : Nat
  procCalls : Nat

/-- One step of the loop body.  `atRead` performs the guarded read:
a locked record means backoff and stay at the read step; an unlocked read
moves to the staleness test, which either ends the call out-of-date or
moves on to the conditional lock.  `atCas` attempts `lockForSequencer`:
failure backs off and returns to the read step with no store change;
success holds the lock and moves to processing.  `atProc` runs the
callback once: success unlocks and returns processed; an exception rolls
back to the sequencer read before this attempt and re-raises. -/
def workerStep (lk : S3Lock) (sequencer : String) (proc : Except E A)
    (s : WState E A) : WState E A :=
  match s.pc with
  | WorkerPC.atRead =>
      match getCurrentSequencer s.store with
      | Except.error ItemLockedException.mk =>
          { s with backoffs := s.backoffs + 1 }
      | Except.ok old =>
          if seqIsOlder old sequencer then
            { s with pc := WorkerPC.atCas old }
          else
            { s with pc := WorkerPC.wReturned (OUTCOME_OUT_OF_DATE, none) }
  | WorkerPC.atCas old =>
      match lockForSequencer lk old sequencer s.store with
      | (true, store1) =>
          { s with
              pc := WorkerPC.atProc old
              store := store1
              casAttempts := s.casAttempts + 1 }
      | (false, store1) =>
          { s with
              pc := WorkerPC.atRead
              store := store1
              casAttempts := s.casAttempts + 1
              backoffs := s.backoffs + 1 }
  | WorkerPC.atProc old =>
      match proc with
      | Except.ok v =>
          { s with
              pc := WorkerPC.wReturned (OUTCOME_PROCESSED, some v)
              store := unlock lk s.store
              procCalls := s.procCalls + 1 }
      | Except.error e =>
          { s with
              pc := WorkerPC.wRaised (PyErr.procErr e)
              store := unlockAndRollBack lk old s.store
              procCalls := s.procCalls + 1 }
  | WorkerPC.wReturned _ => s
  | WorkerPC.wRaised _ => s

/-- C9: after a failed compare-and-swap attempt the loop never immediately
re-issues the CAS: the step goes back to the read program point, with one
backoff, no store write, and no further CAS attempt; and if by the time of
the re-read another worker has moved the store to a state `store2` whose
read shows the notification is no longer newer, the following read step
reports the out-of-date (STALE) outcome, again attempting no CAS. -/
theorem C9_failed_cas_rereads_before_retrying
    (lk : S3Lock) (sequencer : String) (proc : Except E A)
    (old old2 : Option String) (s : WState E A)
    (store2 : Option LockRecord)
    (hpc : s.pc = WorkerPC.atCas old)
    (hfail : (lockForSequencer lk old sequencer s.store).1 = false)
    (hread2 : getCurrentSequencer store2 = Except.ok old2)
    (hstale : seqIsOlder old2 sequencer = false) :
    ((workerStep lk sequencer proc s).pc = WorkerPC.atRead
      ∧ (workerStep lk sequencer proc s).store = s.store
      ∧ (workerStep lk sequencer proc s).backoffs = s.backoffs + 1
      ∧ (workerStep lk sequencer proc s).casAttempts = s.casAttempts + 1)
    ∧ (let s2 := { workerStep lk sequencer proc s with store := store2 }
       (workerStep lk sequencer proc s2).pc
           = WorkerPC.wReturned (OUTCOME_OUT_OF_DATE, none)
        ∧ (workerStep lk sequencer proc s2).casAttempts
           = s.casAttempts + 1
        ∧ (workerStep lk sequencer proc s2).store = store2) := by
  have hnochange : (lockForSequencer lk old sequencer s.store).2 = s.store := by
    rcases lockForSequencer_cases lk old sequencer s.store with h | h
    · rw [h] at hfail
      simp at hfail
    · rw [h]
  have hstep1 : workerStep lk sequencer proc s
      = { s with
            pc := WorkerPC.atRead
            store := (lockForSequencer lk old sequencer s.store).2
            casAttempts := s.casAttempts + 1
            backoffs := s.backoffs + 1 } := by
    rw [show workerStep lk sequencer proc s
        = match lockForSequencer lk old sequencer s.store with
          | (true, store1) =>
              { s with
                  pc := WorkerPC.atProc old
                  store := store1
                  casAttempts := s.casAttempts + 1 }
          | (false, store1) =>
              { s with
                  pc := WorkerPC.atRead
                  store := store1
                  casAttempts := s.casAttempts + 1
                  backoffs := s.backoffs + 1 }
        from by rw [workerStep, hpc]]
    rcases hcas : lockForSequencer lk old sequencer s.store with ⟨b, store1⟩
    rcases b with _ | _
    · rfl
    · rw [hcas] at hfail
      simp at hfail
  rw [hstep1, hnochange]
  refine ⟨⟨rfl, rfl, rfl, rfl⟩, ?_⟩
  show (workerStep lk sequencer proc _).pc = _ ∧ _ ∧ _
  rw [show workerStep lk sequencer proc
        { pc := WorkerPC.atRead, store := store2,
          backoffs := s.backoffs + 1, casAttempts := s.casAttempts + 1,
          procCalls := s.procCalls }
      = if seqIsOlder old2 sequencer then
          { pc := WorkerPC.atCas old2, store := store2,
            backoffs := s.backoffs + 1, casAttempts := s.casAttempts + 1,
            procCalls := s.procCalls }
        else
          { pc := WorkerPC.wReturned (OUTCOME_OUT_OF_DATE, none),
            store := store2, backoffs := s.backoffs + 1,
            casAttempts := s.casAttempts + 1, procCalls := s.procCalls }
      from by rw [workerStep]; simp [hread2]]
  rw [if_neg (by simp [hstale])]
  exact ⟨rfl, rfl, rfl⟩

theorem C9_witness :
    (((workerStep ⟨"k", "w"⟩ "08" (Except.ok () : Except Unit Unit)
          ⟨WorkerPC.atCas (some "05"),
           some ⟨"k", some "07", "", "x"⟩, 0, 0, 0⟩).pc = WorkerPC.atRead
      ∧ (workerStep ⟨"k", "w"⟩ "08" (Except.ok () : Except Unit Unit)
          ⟨WorkerPC.atCas (some "05"),
           some ⟨"k", some "07", "", "x"⟩, 0, 0, 0⟩).store
          = (⟨WorkerPC.atCas (some "05"),
              some ⟨"k", some "07", "", "x"⟩, 0, 0, 0⟩ :
              WState Unit Unit).store
      ∧ (workerStep ⟨"k", "w"⟩ "08" (Except.ok () : Except Unit Unit)
          ⟨WorkerPC.atCas (some "05"),
           some ⟨"k", some "07", "", "x"⟩, 0, 0, 0⟩).backoffs = 0 + 1
      ∧ (workerStep ⟨"k", "w"⟩ "08" (Except.ok () : Except Unit Unit)
          ⟨WorkerPC.atCas (some "05"),
           some ⟨"k", some "07", "", "x"⟩, 0, 0, 0⟩).casAttempts = 0 + 1)
    ∧ ((workerStep ⟨"k", "w"⟩ "08" (Except.ok () : Except Unit Unit)
          { workerStep ⟨"k", "w"⟩ "08" (Except.ok () : Except Unit Unit)
              ⟨WorkerPC.atCas (some "05"),
               some ⟨"k", some "07", "", "x"⟩, 0, 0, 0⟩ with
            store := some ⟨"k", some "10", "", "y"⟩ }).pc
           = WorkerPC.wReturned (OUTCOME_OUT_OF_DATE, none)
        ∧ (workerStep ⟨"k", "w"⟩ "08" (Except.ok () : Except Unit Unit)
            { workerStep ⟨"k", "w"⟩ "08" (Except.ok () : Except Unit Unit)
                ⟨WorkerPC.atCas (some "05"),
                 some ⟨"k", some "07", "", "x"⟩, 0, 0, 0⟩ with
              store := some ⟨"k", some "10", "", "y"⟩ }).casAttempts = 0 + 1
        ∧ (workerStep ⟨"k", "w"⟩ "08" (Except.ok () : Except Unit Unit)
            { workerStep ⟨"k", "w"⟩ "08" (Except.ok () : Except Unit Unit)
                ⟨WorkerPC.atCas (some "05"),
                 some ⟨"k", some "07", "", "x"⟩, 0, 0, 0⟩ with
              store := some ⟨"k", some "10", "", "y"⟩ }).store
           = some ⟨"k", some "10", "", "y"⟩)) :=
  C9_failed_cas_rereads_before_retrying ⟨"k", "w"⟩ "08" (Except.ok ())
    (some "05") (some "10")
    ⟨WorkerPC.atCas (some "05"), some ⟨"k", some "07", "", "x"⟩, 0, 0, 0⟩
    (some ⟨"k", some "10", "", "y"⟩) rfl (by decide) rfl (by decide)

/-! ### The coordination step relation over one key

Multiple workers run the loop concurrently against one key.  Every write
any worker performs on the key's record is one of: a successful
`lockForSequencer` guarded by the staleness test (lines 168-170), the
holder's `unlock` on processing success (line 183), or the holder's
`unlockAndRollBack` to the sequencer it read before acquiring (line 179).
Reads and failed CAS attempts do not change the record, so they are not
steps here.  Two ghost components track what the claims speak about: which
worker currently holds the lock together with the `(oldsequencer,
sequencer)` pair of its acquisition, and the last durably accepted
sequencer (the one written by the last successful unlock, `none` before
any).  The `hread` hypothesis of `acquire` records that the value the
coordinator read is the record's current sequencer: a successful
conditional put forces the stored sequencer to equal the expected one, and
records are never deleted, so a read of `none` can only have come from a
store that still has no record. -/

/-- Ghost data for the worker holding the lock: its execution id, the
sequencer it read before acquiring (`oldsequencer` at line 161) and the
sequencer it locked for. -/
structure Holder where
  owner : String
  oldSeq : Option String
  newSeq : String
  deriving Repr, DecidableEq

/-- State of one key's coordination: the durable record, the ghost holder,
and the ghost last durably accepted sequencer. -/
structure CoordState where
  store : Option LockRecord
  holder : Option Holder
  durable : Option String

/-- Initial state: the key has never been seen. -/
def coordInit : CoordState := ⟨none, none, none⟩

/-- The store-writing transitions of the protocol. -/
inductive CoordLabel where
  | acquire (lk : S3Lock) (old : Option String) (new : String)
  | unlockSuccess (lk : S3Lock)
  | rollback (lk : S3Lock)

/-- Whether a label is the rollback transition. -/
def CoordLabel.isRollback : CoordLabel → Prop
  | CoordLabel.rollback _ => True
  | _ => False

/-- The sequencer stored for the key (`none`: no record, or NULL). -/
def storeSeq : Option LockRecord → Option String
  | none => none
  | some r => r.sequencer

/-- Relation `a <= b` on stored sequencers, the absent value below everything. -/
def seqLE : Option String → Option String → Bool
  | none, _ => true
  | some _, none => false
  | some a, some b => pyStrLtB a b || a == b

/-- One write step on a key's record.  `acquire` is a successful
`lockForSequencer` by a worker that read `old` and passed the staleness
test; `unlockSuccess` is the holder's `unlock` after processing returned;
`rollback` is the holder's `unlockAndRollBack` to the sequencer it had
read.  The holder hypotheses encode the source's control flow: `unlock`
and `unlockAndRollBack` are reached only after that same worker's
`lockForSequencer` returned `True` (lines 170-183). -/
inductive CoordStep : CoordLabel → CoordState → CoordState → Prop where
  | acquire (lk : S3Lock) (old : Option String) (new : String)
      (s : CoordState) (store1 : Option LockRecord)
      (hread : getCurrentSequencer s.store = Except.ok old)
      (hord : seqIsOlder old new = true)
      (hcas : lockForSequencer lk old new s.store = (true, store1)) :
      CoordStep (CoordLabel.acquire lk old new) s
        ⟨store1, some ⟨lk.execution_id, old, new⟩, s.durable⟩
  | unlockSuccess (lk : S3Lock) (h : Holder) (s : CoordState)
      (hh : s.holder = some h) (howner : h.owner = lk.execution_id) :
      CoordStep (CoordLabel.unlockSuccess lk) s
        ⟨unlock lk s.store, none, some h.newSeq⟩
  | rollback (lk : S3Lock) (h : Holder) (s : CoordState)
      (hh : s.holder = some h) (howner : h.owner = lk.execution_id) :
      CoordStep (CoordLabel.rollback lk) s
        ⟨unlockAndRollBack lk h.oldSeq s.store, none, s.durable⟩

/-- States reachable from the initial state by protocol steps. -/
inductive CoordReach : CoordState → Prop where
  | init : CoordReach coordInit
  | step (l : CoordLabel) (s s2 : CoordState) :
      CoordReach s → CoordStep l s s2 → CoordReach s2

/-- The inductive invariant: with no holder the store is unlocked and its
sequencer is the durable one; with a holder the store is locked for the
holder's new sequencer, the durable value is the holder's read value, and
the acquisition passed the staleness test. -/
def CoordInv (s : CoordState) : Prop :=
  (s.holder = none →
      storeSeq s.store = s.durable
      ∧ ∀ r, s.store = some r → pyTruthy r.lock_status = false)
  ∧ (∀ h : Holder, s.holder = some h →
      s.durable = h.oldSeq
      ∧ storeSeq s.store = some h.newSeq
      ∧ (∀ r, s.store = some r → pyTruthy r.lock_status = true)
      ∧ seqIsOlder h.oldSeq h.newSeq = true)

theorem seqLE_refl (x : Option String) : seqLE x x = true := by
  match x with
  | none => rfl
  | some a => simp [seqLE]

theorem seqIsOlder_seqLE {o : Option String} {n : String}
    (h : seqIsOlder o n = true) : seqLE o (some n) = true := by
  match o with
  | none => rfl
  | some a => simp [seqIsOlder] at h; simp [seqLE, h]

theorem getCurrentSequencer_ok {store : Option LockRecord}
    {old : Option String}
    (h : getCurrentSequencer store = Except.ok old) :
    old = storeSeq store
    ∧ ∀ r, store = some r → pyTruthy r.lock_status = false := by
  match store with
  | none =>
      simp [getCurrentSequencer] at h
      exact ⟨h.symm, by intro r hr; exact Option.noConfusion hr⟩
  | some r =>
      by_cases hl : pyTruthy r.lock_status = true
      · simp [getCurrentSequencer, hl] at h
      · simp [getCurrentSequencer, hl] at h
        refine ⟨h.symm, ?_⟩
        rintro r2 rfl2
        cases Option.some.inj rfl2
        simpa using hl

theorem lockForSequencer_true {lk : S3Lock} {old : Option String}
    {new : String} {store store1 : Option LockRecord}
    (h : lockForSequencer lk old new store = (true, store1)) :
    store1 = some (lockedRecord lk new) := by
  rcases lockForSequencer_cases lk old new store with hc | hc
  · rw [hc] at h
    exact (Prod.mk.inj h).2.symm
  · rw [hc] at h
    exact absurd (Prod.mk.inj h).1 (by simp)

theorem coordStep_inv {l : CoordLabel} {s s2 : CoordState}
    (hstep : CoordStep l s s2) (hinv : CoordInv s) : CoordInv s2 := by
  cases hstep with
  | acquire lk old new s0 store1 hread hord hcas =>
      have hstore1 := lockForSequencer_true hcas
      have hro := getCurrentSequencer_ok hread
      match hh : s.holder with
      | some hld =>
          exfalso
          obtain ⟨_, hseqeq, hlocked, _⟩ := hinv.2 hld hh
          match hs : s.store with
          | none => rw [hs] at hseqeq; exact Option.noConfusion hseqeq
          | some r =>
              have := hro.2 r hs
              rw [hlocked r hs] at this
              exact Bool.noConfusion this
      | none =>
          obtain ⟨hseq, _⟩ := hinv.1 hh
          constructor
          · intro hcontr
            exact Option.noConfusion hcontr
          · intro h2 hh2
            cases Option.some.inj hh2
            refine ⟨?_, ?_, ?_, hord⟩
            · exact (hro.1.trans hseq).symm
            · rw [hstore1]; rfl
            · rintro r hr
              rw [hstore1] at hr
              cases Option.some.inj hr
              rfl
  | unlockSuccess lk hld s0 hh howner =>
      obtain ⟨_, hseqeq, _, _⟩ := hinv.2 hld hh
      match hs : s.store with
      | none => rw [hs] at hseqeq; exact Option.noConfusion hseqeq
      | some r =>
          rw [hs] at hseqeq
          constructor
          · intro _
            refine ⟨?_, ?_⟩
            · simp [unlock, hs, storeSeq]
              exact hseqeq
            · rintro r2 hr2
              simp [unlock, hs] at hr2
              rw [← hr2]
              rfl
          · intro h2 hcontr
            exact Option.noConfusion hcontr
  | rollback lk hld s0 hh howner =>
      obtain ⟨hdur, hseqeq, _, _⟩ := hinv.2 hld hh
      constructor
      · intro _
        refine ⟨?_, ?_⟩
        · match hs : s.store with
          | none => simp [unlockAndRollBack, hs, storeSeq, hdur]
          | some r => simp [unlockAndRollBack, hs, storeSeq, hdur]
        · rintro r2 hr2
          match hs : s.store with
          | none =>
              rw [hs] at hr2
              simp [unlockAndRollBack] at hr2
              rw [← hr2]
              rfl
          | some r =>
              rw [hs] at hr2
              simp [unlockAndRollBack] at hr2
              rw [← hr2]
              rfl
      · intro h2 hcontr
        exact Option.noConfusion hcontr

theorem coordReach_inv {s : CoordState} (hs : CoordReach s) : CoordInv s := by
  induction hs with
  | init =>
      exact ⟨fun _ => ⟨rfl, fun r hr => Option.noConfusion hr⟩,
             fun h2 hcontr => Option.noConfusion hcontr⟩
  | step l s s2 _ hstep ih =>
      exact coordStep_inv hstep ih

/-- Operation `unlock` never changes the stored sequencer. -/
theorem storeSeq_unlock (lk : S3Lock) (store : Option LockRecord) :
    storeSeq (unlock lk store) = storeSeq store := by
  match store with
  | none => rfl
  | some r => rfl

/-- Operation `unlockAndRollBack` stores exactly the requested sequencer. -/
theorem storeSeq_unlockAndRollBack (lk : S3Lock) (to_sequencer : Option String)
    (store : Option LockRecord) :
    storeSeq (unlockAndRollBack lk to_sequencer store) = to_sequencer := by
  match store with
  | none => rfl
  | some r => rfl

/-- C7: in every reachable state of the coordination step relation the
stored sequencer never regresses below the last durably accepted value,
and every step either leaves the stored sequencer non-decreasing or is the
rollback transition and restores exactly the last durably accepted
sequencer. -/
theorem C7_sequencer_never_regresses (s : CoordState) (hs : CoordReach s) :
    seqLE s.durable (storeSeq s.store) = true
    ∧ ∀ l s2, CoordStep l s s2 →
        (seqLE (storeSeq s.store) (storeSeq s2.store) = true
         ∨ (l.isRollback ∧ storeSeq s2.store = s.durable)) := by
  have hinv := coordReach_inv hs
  constructor
  · match hh : s.holder with
    | none =>
        rw [(hinv.1 hh).1]
        exact seqLE_refl _
    | some hld =>
        obtain ⟨hdur, hseqeq, _, hord⟩ := hinv.2 hld hh
        rw [hdur, hseqeq]
        exact seqIsOlder_seqLE hord
  · intro l s2 hstep
    cases hstep with
    | acquire lk old new s0 store1 hread hord hcas =>
        left
        rw [lockForSequencer_true hcas, ← (getCurrentSequencer_ok hread).1]
        exact seqIsOlder_seqLE hord
    | unlockSuccess lk hld s0 hh howner =>
        left
        show seqLE (storeSeq s.store) (storeSeq (unlock lk s.store)) = true
        rw [storeSeq_unlock]
        exact seqLE_refl _
    | rollback lk hld s0 hh howner =>
        right
        refine ⟨trivial, ?_⟩
        show storeSeq (unlockAndRollBack lk hld.oldSeq s.store) = s.durable
        rw [storeSeq_unlockAndRollBack]
        exact ((hinv.2 hld hh).1).symm

theorem C7_witness :
    CoordReach coordInit
    ∧ (seqLE coordInit.durable (storeSeq coordInit.store) = true
       ∧ ∀ l s2, CoordStep l coordInit s2 →
           (seqLE (storeSeq coordInit.store) (storeSeq s2.store) = true
            ∨ (l.isRollback ∧ storeSeq s2.store = coordInit.durable))) :=
  ⟨CoordReach.init, C7_sequencer_never_regresses coordInit CoordReach.init⟩

end Endedupe
